import Mathlib

/-!
# API Degradation Detection System — verification of the detection/alerting core

Shallow embedding of the parts of the repository the claims concern:

* `src/src/alert_manager.py` — `AlertManager` (deduplication, cooldown, routing);
* `src/src/storage/baseline_store.py` — `InMemoryBaselineStorage.update_baseline`;
* `src/src/aggregator.py` / `src/src/aggregator_old.py` — per-(endpoint, window)
  aggregate metrics (error rate, p95 latency);
* `src/src/detector.py` — `detect_anomalies` and `_severity_from_z`;
* `src/src/correlator.py` — `correlate`.

Numeric values (Python floats) are modelled as exact rationals `ℚ`; Python's
`round(x, n)` (round-half-to-even at `n` decimal digits) is modelled by
`pyRound`.  Stateful code is modelled by explicit state passing.  Wall-clock
reads (`time.time()`) become an explicit `now : ℚ` parameter; the Python code
reads the clock several times per call, always within microseconds, which the
embedding collapses to a single instant.
-/

/-- Python's `round` at `nd` decimal digits: round half to even, modelled
exactly on rationals. -/
def pyRoundInt (y : ℚ) : ℤ :=
  let f := ⌊y⌋
  let r := y - f
  if r < 1/2 then f
  else if 1/2 < r then f + 1
  else if f % 2 = 0 then f else f + 1

/-- `round(x, nd)` in Python, on exact rationals. -/
def pyRound (nd : ℕ) (x : ℚ) : ℚ :=
  let m : ℚ := (10 : ℚ) ^ nd
  (pyRoundInt (x * m) : ℚ) / m

/-! ## Alert manager (src/src/alert_manager.py)

`AlertManager` keeps `_recent_alerts : Dict[str, float]` mapping the key
`f"{endpoint}_{severity}"` to the last alert wall-clock time; `.get(key, 0)`
is modelled by `amLookup` with default `0`.  The dict write
`self._recent_alerts[key] = now` is modelled by consing the new binding in
front (lookup takes the first match, so this has the dict's lookup
semantics). -/

/-- Config constants (`config.py` fallbacks in `alert_manager.py`). -/
def ALERT_DEDUP_WINDOW : ℚ := 600

def ALERT_COOLDOWN_INFO : ℚ := 3600

def ALERT_COOLDOWN_WARN : ℚ := 1800

def ALERT_COOLDOWN_CRITICAL : ℚ := 300

/-- One signal dict inside an alert candidate, as read by
`AlertManager.classify_severity`.  A missing `severity`/`metric_name` key is
modelled by `""` (compares unequal to every literal the code tests, exactly
like Python's `None`), and missing numeric keys by the `0` default the code
passes to `.get`. -/
structure AMSignal where
  metric_name : String
  severity : String
  current_value : ℚ
  deviation_ratio : ℚ
deriving DecidableEq

/-- An alert candidate as consumed by `AlertManager.process_alert`:
`severity` is `none` when the `'severity'` key is absent. -/
structure AMAlert where
  endpoint : String
  severity : Option String
  signals : List AMSignal
deriving DecidableEq

/-- `AlertManager.classify_severity` (alert_manager.py lines 77–102). -/
def classifySeverity (signals : List AMSignal) : String :=
  if signals.isEmpty then "INFO"
  else
    let hasCriticalSignal := signals.any (fun s => s.severity == "HIGH")
    let hasMultipleSignals : Bool := decide (3 ≤ signals.length)
    let hasErrorSpike := signals.any (fun s =>
      s.metric_name == "error_rate" && decide ((1/20 : ℚ) < s.current_value))
    let hasLatencySpike := signals.any (fun s =>
      (s.metric_name == "avg_latency" || s.metric_name == "p95_latency") &&
        decide ((2 : ℚ) < s.deviation_ratio))
    if hasCriticalSignal || hasMultipleSignals || (hasErrorSpike && hasLatencySpike) then
      "CRITICAL"
    else if hasErrorSpike || hasLatencySpike || decide (2 ≤ signals.length) then
      "WARN"
    else
      "INFO"

/-- The `_recent_alerts` map: association list, first match wins. -/
abbrev AMState := List (String × ℚ)

/-- `self._recent_alerts.get(key, 0)`. -/
def amLookup (st : AMState) (k : String) : ℚ :=
  (st.lookup k).getD 0

/-- `self._recent_alerts[key] = t` (lookup semantics of a dict write). -/
def amSet (st : AMState) (k : String) (t : ℚ) : AMState :=
  (k, t) :: st

/-- `f"{endpoint}_{severity}"`. -/
def amKey (endpoint severity : String) : String :=
  endpoint ++ "_" ++ severity

/-- `AlertManager._should_deduplicate` (lines 104–117). -/
def shouldDeduplicate (st : AMState) (now : ℚ) (endpoint severity : String) : Bool :=
  decide (now - amLookup st (amKey endpoint severity) < ALERT_DEDUP_WINDOW)

/-- `self._cooldowns.get(severity, ALERT_COOLDOWN_INFO)`. -/
def cooldownOf : String → ℚ
  | "INFO" => ALERT_COOLDOWN_INFO
  | "WARN" => ALERT_COOLDOWN_WARN
  | "CRITICAL" => ALERT_COOLDOWN_CRITICAL
  | _ => ALERT_COOLDOWN_INFO

/-- `AlertManager._is_in_cooldown` (lines 119–133). -/
def isInCooldown (st : AMState) (now : ℚ) (endpoint severity : String) : Bool :=
  decide (now - amLookup st (amKey endpoint severity) < cooldownOf severity)

/-- `self._channels.get(severity, ['console'])`. -/
def channelsOf : String → List String
  | "INFO" => ["console"]
  | "WARN" => ["console", "slack"]
  | "CRITICAL" => ["console", "slack", "email"]
  | _ => ["console"]

/-- `AlertManager._route_alert` (lines 284–300): `success` starts `False`;
only the console channel can set it (`consoleOk` is whether
`_send_console` returned `True`); slack/email sends are fire-and-forget. -/
def routeAlert (severity : String) (consoleOk : Bool) : Bool :=
  (channelsOf severity).foldl
    (fun success c => if c == "console" then success || consoleOk else success) false

/-- Result of one `process_alert` call: the returned bool, the manager state
after the call, and whether `store.store_alert` was invoked. -/
structure ProcessResult where
  sent : Bool
  state : AMState
  storeCalled : Bool
deriving DecidableEq

/-- Lines 307–309 of `process_alert`: `alert['severity']` after the
`classify_severity` backstop when the key is absent. -/
def alertSeverity (alert : AMAlert) : String :=
  alert.severity.getD (classifySeverity alert.signals)

/-- `AlertManager.process_alert` (lines 302–336).  `consoleOk` is the outcome
of `_send_console`; `storeOk` is the outcome of `store.store_alert` — a store
exception is caught and logged (lines 322–327), so `storeOk` provably never
influences the result.  On the dedup/cooldown paths the function returns
before touching the store, the channels or `_recent_alerts`. -/
def processAlert (st : AMState) (now : ℚ) (alert : AMAlert)
    (consoleOk storeOk : Bool) : ProcessResult :=
  if shouldDeduplicate st now alert.endpoint (alertSeverity alert) then
    ⟨false, st, false⟩
  else if isInCooldown st now alert.endpoint (alertSeverity alert) then
    ⟨false, st, false⟩
  else
    ⟨routeAlert (alertSeverity alert) consoleOk,
      amSet st (amKey alert.endpoint (alertSeverity alert)) now, true⟩

/-- The three-submission scenario of the cooldown claim: a fresh manager,
one CRITICAL candidate submitted at wall-clock times `t0`, `t0 + 100`,
`t0 + 400` (the claim's relative times t = 0, 100, 400), console healthy. -/
def cooldownScenario (t0 : ℚ) : Bool × Bool × Bool :=
  let alert : AMAlert := ⟨"/api/test", some "CRITICAL", []⟩
  let r1 := processAlert [] t0 alert true true
  let r2 := processAlert r1.state (t0 + 100) alert true true
  let r3 := processAlert r2.state (t0 + 400) alert true true
  (r1.sent, r2.sent, r3.sent)

/-! ## Baseline store (src/src/storage/baseline_store.py) -/

/-- A baseline record as kept by `InMemoryBaselineStorage`
(`mean/std/count/ewma/ewma_variance`).  The Python code stores `std` and
only ever re-squares it (`old_variance = old_std ** 2`), so the embedding
tracks `var = std²` exactly (for real arithmetic `std = √var`, `std ≥ 0`);
the `old_count == 1` branch `new_std = abs(new_value - old_mean)` becomes
`var = (new_value - old_mean)²`. -/
structure BStat where
  mean : ℚ
  var : ℚ
  count : ℕ
  ewma : ℚ
  ewmaVar : ℚ
deriving DecidableEq

/-- `InMemoryBaselineStorage.update_baseline` (lines 94–152): the numeric
update of one `(endpoint, metric)` slot (`none` = slot not yet present).
`SQLiteBaselineStorage.update_baseline` (lines 235–284) performs the same
arithmetic on the fetched record. -/
def updateBaseline (cur : Option BStat) (v : ℚ) : BStat :=
  match cur with
  | none => ⟨v, 0, 1, v, 0⟩
  | some b =>
    let newCount := b.count + 1
    let newMean := b.mean + (v - b.mean) / (newCount : ℚ)
    let newVar :=
      if 1 < b.count then
        let q := b.var + (v - b.mean) * (v - newMean) / (newCount : ℚ)
        if 0 < q then q else 0
      else (v - b.mean) ^ 2
    let newEwma := (1/10 : ℚ) * v + (9/10 : ℚ) * b.ewma
    let newEwmaVar := (9/10 : ℚ) * (b.ewmaVar + (1/10 : ℚ) * (v - b.ewma) ^ 2)
    ⟨newMean, newVar, newCount, newEwma, newEwmaVar⟩

/-- N sequential `update_baseline` calls for one `(endpoint, metric)` slot,
starting from an absent slot. -/
def runBaseline (vs : List ℚ) : Option BStat :=
  vs.foldl (fun acc v => some (updateBaseline acc v)) none

/-- Modelled from the claim's words: the arithmetic mean of a sample. -/
def listMean (vs : List ℚ) : ℚ :=
  vs.sum / (vs.length : ℚ)

/-- Modelled from the claim's words: the population variance of a sample
(the square of the population standard deviation). -/
def popVariance (vs : List ℚ) : ℚ :=
  ((vs.map (fun x => (x - listMean vs) ^ 2)).sum) / (vs.length : ℚ)

/-! ## Aggregators (src/src/aggregator.py and src/src/aggregator_old.py) -/

/-- Ascending sort of a rational sample (Python `sorted` / pandas sorting:
identical as a function on values). -/
def sortQ (l : List ℚ) : List ℚ :=
  l.insertionSort (· ≤ ·)

/-- One raw request row as consumed inside one pandas `(endpoint, window)`
group by `compute_aggregates`; the endpoint string and timestamp play no
further role once the group is formed and are omitted. -/
structure ReqEntry where
  status_code : ℤ
  latency_ms : ℚ
  response_size : ℚ
deriving DecidableEq

/-- `pandas.Series.quantile(q)` with the default linear interpolation, as
called at aggregator.py line 174: position `q·(n−1)` into the sorted sample,
linearly interpolating between the two neighbouring order statistics. -/
def quantileLinear (q : ℚ) (l : List ℚ) : ℚ :=
  let s := sortQ l
  let n := l.length
  let pos : ℚ := q * ((n : ℚ) - 1)
  let i : ℕ := (⌊pos⌋).toNat
  let lo := s.getD i 0
  let hi := s.getD (min (i + 1) (n - 1)) 0
  lo + (hi - lo) * (pos - ⌊pos⌋)

/-- The per-group aggregate record of `compute_aggregates` (aggregator.py
lines 166–188); endpoint/window/timestamp bookkeeping omitted. -/
structure AggRecord where
  avg_latency : ℚ
  p95_latency : ℚ
  error_rate : ℚ
  request_volume : ℕ
  response_var : ℚ
deriving DecidableEq

/-- The body of the `groupby` loop of `compute_aggregates` (aggregator.py
lines 172–188) on one non-empty group `g`: mean latency,
`quantile(0.95)` latency, error rate `(status_code >= 500).sum() / len(g)`,
request volume, and `var(ddof=0)` of the response sizes (`0.0` when the
group has a single row). -/
def computeAggRecord (g : List ReqEntry) : AggRecord :=
  { avg_latency := (g.map ReqEntry.latency_ms).sum / (g.length : ℚ)
    p95_latency := quantileLinear (19/20) (g.map ReqEntry.latency_ms)
    error_rate := (g.countP (fun e => decide (500 ≤ e.status_code)) : ℚ) / (g.length : ℚ)
    request_volume := g.length
    response_var :=
      if 1 < g.length then popVariance (g.map ReqEntry.response_size) else 0 }

/-- A parsed log entry from `_parse_log_entry` (aggregator_old.py lines
61–105), keeping the fields `_compute_metrics` reads — including the
derived `is_error` flag assigned at parse time (line 101). -/
structure OldEntry where
  status_code : ℤ
  latency_ms : ℚ
  response_size : ℚ
  is_error : Bool
deriving DecidableEq

/-- `_parse_log_entry`'s construction of a validated entry:
`is_error = status_code >= 400` (aggregator_old.py line 101). -/
def mkParsed (status : ℤ) (latency size : ℚ) : OldEntry :=
  ⟨status, latency, size, decide (400 ≤ status)⟩

/-- `sorted_latencies[min(int(len * 0.95), len - 1)]` — the p95 selection of
`_compute_metrics` (aggregator_old.py lines 156–158) before rounding.
`int(len * 0.95)` is `⌊19·n/20⌋`, i.e. `19 * n / 20` in `ℕ`. -/
def selectP95 (l : List ℚ) : ℚ :=
  (sortQ l).getD (min (19 * l.length / 20) (l.length - 1)) 0

/-- The metrics dict built by `_compute_metrics` (aggregator_old.py lines
143–186), numeric fields (endpoint/window/timestamp bookkeeping omitted). -/
structure OldMetrics where
  avg_latency : ℚ
  p95_latency : ℚ
  error_rate : ℚ
  request_volume : ℕ
  response_size_variance : ℚ
  sample_count : ℕ
deriving DecidableEq

/-- `_compute_metrics` (aggregator_old.py lines 143–186) on one non-empty
group of parsed logs. -/
def computeMetricsOld (g : List OldEntry) : OldMetrics :=
  { avg_latency := pyRound 2 ((g.map OldEntry.latency_ms).sum / (g.length : ℚ))
    p95_latency := pyRound 2 (selectP95 (g.map OldEntry.latency_ms))
    error_rate := pyRound 4 ((g.countP OldEntry.is_error : ℚ) / (g.length : ℚ))
    request_volume := g.length
    response_size_variance :=
      pyRound 2 (if 1 < g.length then popVariance (g.map OldEntry.response_size) else 0)
    sample_count := g.length }

/-- Modelled from the spec's words (refinement target, compared against the
code's percentile): the nearest-rank percentile `sorted[ceil(p·n) − 1]`,
1-indexed, rank clamped to `[1, n]`. -/
def nearestRankSpec (p : ℚ) (l : List ℚ) : ℚ :=
  let n := l.length
  let rank : ℤ := min (max ⌈p * (n : ℚ)⌉ 1) (n : ℤ)
  (sortQ l).getD (rank.toNat - 1) 0

/-- Modelled from the spec's words (refinement target, compared against the
code's error rate): the fraction of entries whose status code is ≥ 400. -/
def errorFraction400 (g : List ReqEntry) : ℚ :=
  (g.countP (fun e => decide (400 ≤ e.status_code)) : ℚ) / (g.length : ℚ)

/-! ## Drift detector (src/src/detector.py) -/

/-- A per-(endpoint, metric) baseline dict as read by `detect_anomalies`
(keys `mean`, `std`, `ewma`, `ewma_std`, `count`; the code supplies
`mean`/`std` fallbacks for missing `ewma`/`ewma_std` keys — here all keys
are modelled present). -/
structure DBase where
  mean : ℚ
  std : ℚ
  ewma : ℚ
  ewma_std : ℚ
  count : ℕ
deriving DecidableEq

/-- `z_rolling` (detector.py lines 750–752): `0` unless `std > 0`. -/
def zRolling (v : ℚ) (b : DBase) : ℚ :=
  if 0 < b.std then (v - b.mean) / b.std else 0

/-- `z_ewma` (detector.py lines 754–756): `0` unless `ewma_std > 0`. -/
def zEwma (v : ℚ) (b : DBase) : ℚ :=
  if 0 < b.ewma_std then (v - b.ewma) / b.ewma_std else 0

/-- `deviation_ratio` (detector.py line 762): denominator `abs(mean)` when
the mean is nonzero, else `1.0`. -/
def deviationRatio (v : ℚ) (b : DBase) : ℚ :=
  (v - b.mean) / (if b.mean ≠ 0 then |b.mean| else 1)

/-- `_severity_from_z` (detector.py lines 692–701); the `az ≥ 1.0` branch
and the final fallback both return `"LOW"`. -/
def severityFromZ (z : ℚ) : String :=
  if 3 ≤ |z| then "HIGH"
  else if 2 ≤ |z| then "MEDIUM"
  else if 1 ≤ |z| then "LOW"
  else "LOW"

/-- One emitted anomaly dict (detector.py lines 775–785). -/
structure DAnomaly where
  endpoint : String
  window_start : String
  metric_name : String
  baseline_value : ℚ
  current_value : ℚ
  ewma_value : ℚ
  deviation_ratio : ℚ
  z_score : ℚ
  severity : String
deriving DecidableEq

/-- Loop body of `detect_anomalies` (detector.py lines 725–787) for one
`(endpoint, window, metric)` triple whose metric value `v` is present:
`b` is `endpoint_baseline.get(m)` (`none` when absent); skip when the
baseline is absent or `count < 10`; emit iff `|z_rolling| ≥ 2.0 or
|z_ewma| ≥ 1.5`, with severity from the larger |z|. -/
def detectOne (e w m : String) (v : ℚ) (b : Option DBase) : Option DAnomaly :=
  match b with
  | none => none
  | some b =>
    if b.count < 10 then none
    else
      if 2 ≤ |zRolling v b| ∨ (3/2 : ℚ) ≤ |zEwma v b| then
        some ⟨e, w, m, b.mean, v, b.ewma, pyRound 4 (deviationRatio v b),
          pyRound 2 (max |zRolling v b| |zEwma v b|),
          severityFromZ (max |zRolling v b| |zEwma v b|)⟩
      else none

/-- The metric names `detect_anomalies` checks (detector.py line 720). -/
def metricNames : List String :=
  ["avg_latency", "p95_latency", "error_rate"]

/-- `detect_anomalies` (detector.py lines 704–789): `current` is the
`endpoint → window → metric → value` nesting, `baseline` the
`endpoint → metric → stats` nesting, modelled as insertion-ordered
association lists (Python dicts); the `append`s of the triple loop become
`flatMap`/`filterMap`. -/
def detectAnomalies
    (current : List (String × List (String × List (String × ℚ))))
    (baseline : List (String × List (String × DBase))) : List DAnomaly :=
  current.flatMap fun ew =>
    let eb := (baseline.lookup ew.1).getD []
    ew.2.flatMap fun wm =>
      metricNames.filterMap fun m =>
        match wm.2.lookup m with
        | none => none
        | some v => detectOne ew.1 wm.1 m v (eb.lookup m)

/-! ## Correlator (src/src/correlator.py) -/

/-- An input anomaly as read by `correlate`: exactly the fields the function
consults.  `endpoint`/`window_start` equal to `""` model Python-falsy values
(skipped by the guard at correlator.py lines 87–89); `sustained` models
`drift_context.get("is_sustained_degradation", False)`. -/
structure CAnomaly where
  endpoint : String
  window_start : String
  metric_name : String
  severity : String
  sustained : Bool
deriving DecidableEq

/-- An alert candidate emitted by `correlate` (correlator.py lines
147–160).  The `window_end` ISO-timestamp arithmetic and the
`(metric_name, str(deviation_ratio))` presentation sort of the signal list
are not modelled (no claim touches them); `signals` keeps the group in
arrival order, and the copied first-signal `drift_context` is represented
by the `has_sustained` aggregate the code also computes. -/
structure CAlert where
  endpoint : String
  window_start : String
  severity : String
  signals : List CAnomaly
  has_latency : Bool
  has_error : Bool
  has_traffic : Bool
  has_sustained : Bool
deriving DecidableEq

/-- `s.get('metric_name') in ['avg_latency', 'p95_latency']`. -/
def isLatencyMetric (m : String) : Bool :=
  m == "avg_latency" || m == "p95_latency"

/-- The malformed-anomaly guard (correlator.py lines 87–89). -/
def validAnomaly (a : CAnomaly) : Bool :=
  !(a.endpoint == "") && !(a.window_start == "")

/-- The grouping key (correlator.py line 90). -/
def anomalyKey (a : CAnomaly) : String × String :=
  (a.endpoint, a.window_start)

/-- The group for one key: valid anomalies with that key, in arrival order
(`groups.setdefault(key, []).append(a)`). -/
def groupOf (anoms : List CAnomaly) (k : String × String) : List CAnomaly :=
  (anoms.filter validAnomaly).filter (fun a => anomalyKey a == k)

/-- `has_latency` of a group (correlator.py line 102). -/
def hasLatencySignal (g : List CAnomaly) : Bool :=
  g.any (fun s => isLatencyMetric s.metric_name)

/-- `has_error` of a group (correlator.py line 103). -/
def hasErrorSignal (g : List CAnomaly) : Bool :=
  g.any (fun s => s.metric_name == "error_rate")

/-- `has_traffic` of a group (correlator.py line 104). -/
def hasTrafficSignal (g : List CAnomaly) : Bool :=
  g.any (fun s => s.metric_name == "request_volume")

/-- The per-group body of `correlate` (correlator.py lines 94–161):
latency AND error → HIGH; latency or error alone → MEDIUM; otherwise
(traffic only, or no qualifying signal) no candidate. -/
def emitGroup (k : String × String) (g : List CAnomaly) : Option CAlert :=
  if hasLatencySignal g && hasErrorSignal g then
    some ⟨k.1, k.2, "HIGH", g, hasLatencySignal g, hasErrorSignal g,
      hasTrafficSignal g, g.any CAnomaly.sustained⟩
  else if hasLatencySignal g || hasErrorSignal g then
    some ⟨k.1, k.2, "MEDIUM", g, hasLatencySignal g, hasErrorSignal g,
      hasTrafficSignal g, g.any CAnomaly.sustained⟩
  else none

/-- Lexicographic order on `(endpoint, window_start)` keys: Python's tuple
comparison in `sorted(groups.keys())`. -/
def keyLe (k1 k2 : String × String) : Prop :=
  k1.1 < k2.1 ∨ (k1.1 = k2.1 ∧ k1.2 ≤ k2.2)

instance : DecidableRel keyLe :=
  fun k1 k2 => inferInstanceAs (Decidable (k1.1 < k2.1 ∨ (k1.1 = k2.1 ∧ k1.2 ≤ k2.2)))

/-- The keys in the order `correlate` visits them: the distinct keys of the
valid anomalies, sorted (`sorted(groups.keys())`; deduplicating before the
sort is order-equivalent to collecting dict keys first). -/
def sortedKeys (anoms : List CAnomaly) : List (String × String) :=
  (((anoms.filter validAnomaly).map anomalyKey).dedup).insertionSort keyLe

/-- `correlate` (correlator.py lines 54–163). -/
def correlate (anoms : List CAnomaly) : List CAlert :=
  (sortedKeys anoms).filterMap (fun k => emitGroup k (groupOf anoms k))

/-! ## Theorems -/

/-- Shared evaluation of the three-submission scenario: the third call is
still deduplicated (it falls inside the 600 s dedup window, which
`process_alert` checks before the CRITICAL 300 s cooldown). -/
theorem cooldownScenario_eval (t0 : ℚ) (h : 600 ≤ t0) :
    cooldownScenario t0 = (true, false, false) := by
  have sd1 : shouldDeduplicate [] t0 "/api/test"
      (alertSeverity ⟨"/api/test", some "CRITICAL", []⟩) = false := by
    show decide (t0 - 0 < 600) = false
    simp only [decide_eq_false_iff_not, not_lt]
    linarith
  have cd1 : isInCooldown [] t0 "/api/test"
      (alertSeverity ⟨"/api/test", some "CRITICAL", []⟩) = false := by
    show decide (t0 - 0 < 300) = false
    simp only [decide_eq_false_iff_not, not_lt]
    linarith
  have r1 : processAlert [] t0 ⟨"/api/test", some "CRITICAL", []⟩ true true =
      ⟨true, [("/api/test_CRITICAL", t0)], true⟩ := by
    unfold processAlert
    rw [sd1, cd1]
    rfl
  have sd2 : ∀ d : ℚ, d < 600 →
      shouldDeduplicate [("/api/test_CRITICAL", t0)] (t0 + d) "/api/test"
        (alertSeverity ⟨"/api/test", some "CRITICAL", []⟩) = true := by
    intro d hd
    show decide (t0 + d - t0 < 600) = true
    simp only [decide_eq_true_eq]
    linarith
  have r2 : ∀ d : ℚ, d < 600 →
      processAlert [("/api/test_CRITICAL", t0)] (t0 + d)
          ⟨"/api/test", some "CRITICAL", []⟩ true true =
        ⟨false, [("/api/test_CRITICAL", t0)], false⟩ := by
    intro d hd
    unfold processAlert
    rw [sd2 d hd]
    rfl
  show ((processAlert [] t0 ⟨"/api/test", some "CRITICAL", []⟩ true true).sent,
      (processAlert (processAlert [] t0 ⟨"/api/test", some "CRITICAL", []⟩ true true).state
        (t0 + 100) ⟨"/api/test", some "CRITICAL", []⟩ true true).sent,
      (processAlert (processAlert (processAlert [] t0 ⟨"/api/test", some "CRITICAL", []⟩
          true true).state (t0 + 100) ⟨"/api/test", some "CRITICAL", []⟩ true true).state
        (t0 + 400) ⟨"/api/test", some "CRITICAL", []⟩ true true).sent) =
      (true, false, false)
  rw [r1]
  show (true, (processAlert [("/api/test_CRITICAL", t0)] (t0 + 100)
      ⟨"/api/test", some "CRITICAL", []⟩ true true).sent,
      (processAlert (processAlert [("/api/test_CRITICAL", t0)] (t0 + 100)
          ⟨"/api/test", some "CRITICAL", []⟩ true true).state (t0 + 400)
        ⟨"/api/test", some "CRITICAL", []⟩ true true).sent) = (true, false, false)
  rw [r2 100 (by norm_num)]
  show (true, false, (processAlert [("/api/test_CRITICAL", t0)] (t0 + 400)
      ⟨"/api/test", some "CRITICAL", []⟩ true true).sent) = (true, false, false)
  rw [r2 400 (by norm_num)]

/-- C1 (counterexample): at wall-clock start time 1000000 the three CRITICAL
submissions at relative times 0, 100, 400 yield `(true, false, false)`, not
the claimed `(true, false, true)`: the third submission is still inside the
600 s dedup window, which `process_alert` checks before the 300 s CRITICAL
cooldown. -/
theorem cooldown_claim_counterexample :
    cooldownScenario 1000000 = (true, false, false) ∧
      cooldownScenario 1000000 ≠ (true, false, true) := by
  have h := cooldownScenario_eval 1000000 (by norm_num)
  refine ⟨h, ?_⟩
  rw [h]
  decide

/-- C1 (amended): for a freshly constructed `AlertManager` and three
candidates with the same endpoint and severity CRITICAL submitted at
relative times 0, 100 and 400 (wall clock `t0 ≥ 600`, so the fresh-state
default `0` does not spuriously deduplicate the first), `process_alert`
returns true, false, false: the third candidate is deduplicated because the
600 s dedup window — checked before the CRITICAL 300 s cooldown — has not
yet elapsed. -/
theorem cooldown_scenario_result (t0 : ℚ) (h : 600 ≤ t0) :
    cooldownScenario t0 = (true, false, false) :=
  cooldownScenario_eval t0 h

/-- C1 witness: the amended theorem instantiated at `t0 = 1000000`. -/
theorem cooldown_scenario_result_witness :
    (600 : ℚ) ≤ 1000000 ∧ cooldownScenario 1000000 = (true, false, false) :=
  ⟨by norm_num, cooldown_scenario_result 1000000 (by norm_num)⟩

/-- Shared: the dedup path of `process_alert` — when the key is within the
dedup window the call returns `False`, keeps the state, skips the store. -/
theorem processAlert_dedup_eq (st : AMState) (now : ℚ) (alert : AMAlert)
    (consoleOk storeOk : Bool)
    (h : now - amLookup st (amKey alert.endpoint (alertSeverity alert)) < ALERT_DEDUP_WINDOW) :
    processAlert st now alert consoleOk storeOk = ⟨false, st, false⟩ := by
  have hsd : shouldDeduplicate st now alert.endpoint (alertSeverity alert) = true := by
    simp only [shouldDeduplicate, decide_eq_true_eq]
    exact h
  unfold processAlert
  rw [hsd]
  rfl

/-- Shared: the accepted path of `process_alert` — past both dedup window and
cooldown, the call stores, routes, and re-stamps the key. -/
theorem processAlert_pass_eq (st : AMState) (now : ℚ) (alert : AMAlert)
    (consoleOk storeOk : Bool)
    (hd : ¬ now - amLookup st (amKey alert.endpoint (alertSeverity alert)) <
      ALERT_DEDUP_WINDOW)
    (hc : ¬ now - amLookup st (amKey alert.endpoint (alertSeverity alert)) <
      cooldownOf (alertSeverity alert)) :
    processAlert st now alert consoleOk storeOk =
      ⟨routeAlert (alertSeverity alert) consoleOk,
        amSet st (amKey alert.endpoint (alertSeverity alert)) now, true⟩ := by
  have hsd : shouldDeduplicate st now alert.endpoint (alertSeverity alert) = false := by
    simp only [shouldDeduplicate, decide_eq_false_iff_not]
    exact hd
  have hcd : isInCooldown st now alert.endpoint (alertSeverity alert) = false := by
    simp only [isInCooldown, decide_eq_false_iff_not]
    exact hc
  unfold processAlert
  rw [hsd, hcd]
  rfl

/-- Shared: `_route_alert` reports exactly the console outcome — every
channel list contains `console` once, and slack/email never touch
`success`. -/
theorem routeAlert_eq_consoleOk (severity : String) (consoleOk : Bool) :
    routeAlert severity consoleOk = consoleOk := by
  unfold routeAlert channelsOf
  split <;> simp [List.foldl]

/-- Shared: re-reading a key just written returns the written time. -/
theorem amLookup_amSet (st : AMState) (k : String) (t : ℚ) :
    amLookup (amSet st k t) k = t := by
  simp [amLookup, amSet, List.lookup]

/-- C7: a candidate whose `(endpoint, severity)` key was last alerted less
than the dedup window (600 s, with `0` as the never-alerted default) ago is
dropped: `process_alert` returns false, leaves `_recent_alerts` untouched,
and never calls the alert store. -/
theorem process_alert_dedup_drops (st : AMState) (now : ℚ) (alert : AMAlert)
    (consoleOk storeOk : Bool)
    (h : now - amLookup st (amKey alert.endpoint (alertSeverity alert)) < ALERT_DEDUP_WINDOW) :
    processAlert st now alert consoleOk storeOk = ⟨false, st, false⟩ :=
  processAlert_dedup_eq st now alert consoleOk storeOk h

/-- C7 witness: a WARN candidate re-submitted 100 s after its key was
stamped is dropped with the state intact and the store untouched. -/
theorem process_alert_dedup_drops_witness :
    (200 : ℚ) - amLookup [("/a_WARN", 100)] (amKey "/a" "WARN") < ALERT_DEDUP_WINDOW ∧
      processAlert [("/a_WARN", (100 : ℚ))] 200 ⟨"/a", some "WARN", []⟩ true false =
        ⟨false, [("/a_WARN", 100)], false⟩ :=
  ⟨by show (200 : ℚ) - 100 < 600; norm_num,
    process_alert_dedup_drops [("/a_WARN", (100 : ℚ))] 200 ⟨"/a", some "WARN", []⟩ true false
      (by show (200 : ℚ) - 100 < 600; norm_num)⟩

/-- C10: once a candidate passes deduplication and cooldown, `process_alert`
stamps `last_alert_time[(endpoint, severity)]` with the current time for
every console and store outcome — in particular when console delivery fails
(the call returns false, since the return value is exactly the console
outcome) and for either store outcome (store exceptions are swallowed).  The
store is still called, and any later candidate for the same key inside the
dedup window is then dropped without reaching the store. -/
theorem process_alert_tracks_despite_failures (st : AMState) (now : ℚ)
    (alert : AMAlert) (consoleOk storeOk : Bool)
    (hd : ¬ now - amLookup st (amKey alert.endpoint (alertSeverity alert)) <
      ALERT_DEDUP_WINDOW)
    (hc : ¬ now - amLookup st (amKey alert.endpoint (alertSeverity alert)) <
      cooldownOf (alertSeverity alert)) :
    amLookup (processAlert st now alert consoleOk storeOk).state
        (amKey alert.endpoint (alertSeverity alert)) = now ∧
      (processAlert st now alert consoleOk storeOk).sent = consoleOk ∧
      (processAlert st now alert consoleOk storeOk).storeCalled = true ∧
      ∀ (now' : ℚ) (c' s' : Bool), now' - now < ALERT_DEDUP_WINDOW →
        processAlert (processAlert st now alert consoleOk storeOk).state now' alert c' s' =
          ⟨false, (processAlert st now alert consoleOk storeOk).state, false⟩ := by
  have hp := processAlert_pass_eq st now alert consoleOk storeOk hd hc
  rw [hp]
  refine ⟨amLookup_amSet _ _ _, routeAlert_eq_consoleOk _ _, rfl, ?_⟩
  intro now' c' s' h'
  apply processAlert_dedup_eq
  rw [amLookup_amSet]
  exact h'

/-- C10 witness: a WARN candidate at `t = 5000` on a fresh manager with a
failing console and failing store still stamps the key, returns false, calls
the store, and suppresses a resubmission at `t = 5100`. -/
theorem process_alert_tracks_despite_failures_witness :
    amLookup (processAlert [] 5000 ⟨"/a", some "WARN", []⟩ false false).state
        (amKey "/a" "WARN") = 5000 ∧
      (processAlert [] 5000 ⟨"/a", some "WARN", []⟩ false false).sent = false ∧
      (processAlert [] 5000 ⟨"/a", some "WARN", []⟩ false false).storeCalled = true ∧
      processAlert (processAlert [] 5000 ⟨"/a", some "WARN", []⟩ false false).state 5100
          ⟨"/a", some "WARN", []⟩ true true =
        ⟨false, (processAlert [] 5000 ⟨"/a", some "WARN", []⟩ false false).state, false⟩ := by
  have h := process_alert_tracks_despite_failures [] 5000 ⟨"/a", some "WARN", []⟩ false false
    (by show ¬ ((5000 : ℚ) - 0 < 600); norm_num)
    (by show ¬ ((5000 : ℚ) - 0 < 1800); norm_num)
  exact ⟨h.1, h.2.1, h.2.2.1, h.2.2.2 5100 true true (by show (5100 : ℚ) - 5000 < 600; norm_num)⟩

/-- Shared: `pyRoundInt` is the identity on integers. -/
theorem pyRoundInt_intCast (z : ℤ) : pyRoundInt (z : ℚ) = z := by
  unfold pyRoundInt
  norm_num

/-- Shared: `round(x, nd)` leaves `x` unchanged when `x·10^nd` is an
integer. -/
theorem pyRound_eq_self (nd : ℕ) (x : ℚ) (z : ℤ) (h : x * 10 ^ nd = (z : ℚ)) :
    pyRound nd x = (z : ℚ) / 10 ^ nd := by
  show ((pyRoundInt (x * (10 : ℚ) ^ nd) : ℤ) : ℚ) / (10 : ℚ) ^ nd = (z : ℚ) / 10 ^ nd
  rw [h, pyRoundInt_intCast]

/-- C2: after the two `update_baseline` calls with values `[0, 2]` the
stored mean is exact (`sum/N = 1`), but the stored std is `2` (squared:
`var = 4`) while the population standard deviation of `[0, 2]` is `1`
(variance `1`) — the code's `old_count == 1` branch sets
`new_std = abs(new_value - old_mean)` instead of running Welford, despite
the code's own comment claiming Welford's algorithm. -/
theorem welford_claim_fails_on_code :
    (runBaseline [0, 2]).map BStat.mean = some (listMean [0, 2]) ∧
      (runBaseline [0, 2]).map BStat.var = some 4 ∧
      popVariance [0, 2] = 1 ∧ (4 : ℚ) ≠ 1 := by
  refine ⟨?_, ?_, ?_, by norm_num⟩
  · norm_num [runBaseline, updateBaseline, listMean, List.foldl]
  · norm_num [runBaseline, updateBaseline, List.foldl]
  · norm_num [popVariance, listMean]

/-- C9: the z-score guards of `detect_anomalies` — whenever the rolling std
is not positive the rolling z-score term is `0`, and whenever the EWMA std
is not positive the EWMA z-score term is `0`; no division by a zero std is
ever performed. -/
theorem z_scores_zero_on_nonpositive_std (v : ℚ) (b : DBase) :
    (b.std ≤ 0 → zRolling v b = 0) ∧ (b.ewma_std ≤ 0 → zEwma v b = 0) := by
  constructor
  · intro h
    unfold zRolling
    rw [if_neg (not_lt.mpr h)]
  · intro h
    unfold zEwma
    rw [if_neg (not_lt.mpr h)]

/-- C9 witness: at a baseline with zero stds both z-terms evaluate to 0. -/
theorem z_scores_zero_on_nonpositive_std_witness :
    ((⟨100, 0, 100, 0, 20⟩ : DBase).std ≤ 0) ∧
      zRolling 130 ⟨100, 0, 100, 0, 20⟩ = 0 ∧ zEwma 130 ⟨100, 0, 100, 0, 20⟩ = 0 :=
  ⟨by norm_num,
    (z_scores_zero_on_nonpositive_std 130 ⟨100, 0, 100, 0, 20⟩).1 (by norm_num),
    (z_scores_zero_on_nonpositive_std 130 ⟨100, 0, 100, 0, 20⟩).2 (by norm_num)⟩

/-- C3 (counterexample): a single request with status 404 — the current
aggregator (`compute_aggregates`, aggregator.py) reports error rate `0`
because it counts `status_code >= 500`, while the fraction of entries with
status ≥ 400 is `1`. -/
theorem error_rate_counterexample :
    (computeAggRecord [⟨404, 100, 0⟩]).error_rate = 0 ∧
      errorFraction400 [⟨404, 100, 0⟩] = 1 ∧ (0 : ℚ) ≠ 1 := by
  refine ⟨?_, ?_, by norm_num⟩
  · norm_num [computeAggRecord, List.countP_cons, List.countP_nil]
  · norm_num [errorFraction400, List.countP_cons, List.countP_nil]

/-- C3 (amended): `compute_aggregates` (aggregator.py) reports the fraction
of entries with `status_code ≥ 500`, while the superseded
`_compute_metrics` (aggregator_old.py) reports the fraction of entries with
`status_code ≥ 400` (as flagged by `_parse_log_entry`) rounded to 4 decimal
digits. -/
theorem error_rate_formulas :
    (∀ g : List ReqEntry,
        (computeAggRecord g).error_rate =
          (g.countP (fun e => decide (500 ≤ e.status_code)) : ℚ) / (g.length : ℚ)) ∧
      (∀ raw : List (ℤ × ℚ × ℚ),
        (computeMetricsOld (raw.map (fun t => mkParsed t.1 t.2.1 t.2.2))).error_rate =
          pyRound 4 ((raw.countP (fun t => decide (400 ≤ t.1)) : ℚ) / (raw.length : ℚ))) := by
  constructor
  · intro g
    rfl
  · intro raw
    show pyRound 4
        (((raw.map fun t => mkParsed t.1 t.2.1 t.2.2).countP OldEntry.is_error : ℚ) /
          (((raw.map fun t => mkParsed t.1 t.2.1 t.2.2)).length : ℚ)) = _
    rw [List.countP_map, List.length_map]
    rfl

/-- Shared: the floor-rank p95 index of aggregator_old agrees with the
spec's nearest-rank index whenever `0.95·n` is not an integer. -/
theorem selectP95_eq_nearestRank (l : List ℚ) (h : ¬ (20 ∣ 19 * l.length)) :
    selectP95 l = nearestRankSpec (19/20) l := by
  have hn : l.length ≠ 0 := by omega
  have hr : 19 * l.length % 20 ≠ 0 := by omega
  have hdm : 20 * (19 * l.length / 20) + 19 * l.length % 20 = 19 * l.length :=
    Nat.div_add_mod _ _
  have hrlt : 19 * l.length % 20 < 20 := Nat.mod_lt _ (by norm_num)
  have h19 : (19 : ℚ) * (l.length : ℚ) =
      20 * ((19 * l.length / 20 : ℕ) : ℚ) + ((19 * l.length % 20 : ℕ) : ℚ) := by
    exact_mod_cast congrArg (fun m : ℕ => (m : ℚ)) hdm.symm
  have hsplit : (19/20 : ℚ) * (l.length : ℚ) =
      ((19 * l.length % 20 : ℕ) : ℚ) / 20 + (((19 * l.length / 20 : ℕ) : ℤ) : ℚ) := by
    rw [Int.cast_natCast]
    rw [show (19/20 : ℚ) * (l.length : ℚ) = (19 * (l.length : ℚ)) / 20 by ring, h19]
    ring
  have h1 : ⌈((19 * l.length % 20 : ℕ) : ℚ) / 20⌉ = 1 := by
    rw [Int.ceil_eq_iff]
    have hge1 : (1 : ℚ) ≤ ((19 * l.length % 20 : ℕ) : ℚ) := by
      exact_mod_cast Nat.one_le_iff_ne_zero.mpr hr
    have hlt : ((19 * l.length % 20 : ℕ) : ℚ) < 20 := by exact_mod_cast hrlt
    constructor
    · push_cast
      linarith
    · push_cast
      linarith
  have hceil : ⌈(19/20 : ℚ) * (l.length : ℚ)⌉ = ((19 * l.length / 20 : ℕ) : ℤ) + 1 := by
    rw [hsplit, Int.ceil_add_int, h1]
    omega
  simp only [selectP95, nearestRankSpec]
  rw [hceil]
  congr 1
  omega

/-- C4 (counterexample): for the two-element latency sample `[0, 100]` the
current aggregator (`compute_aggregates`, aggregator.py, pandas
`quantile(0.95)` with linear interpolation) reports p95 = 95, while the
claimed nearest-rank value `sorted[ceil(0.95·2) − 1] = sorted[1]` is 100. -/
theorem p95_counterexample :
    (computeAggRecord [⟨200, 0, 0⟩, ⟨200, 100, 0⟩]).p95_latency = 95 ∧
      nearestRankSpec (19/20) [0, 100] = 100 ∧ (95 : ℚ) ≠ 100 := by
  have hs : sortQ [(0 : ℚ), 100] = [0, 100] := by
    norm_num [sortQ, List.insertionSort, List.orderedInsert]
  refine ⟨?_, ?_, by norm_num⟩
  · show quantileLinear (19/20) [0, 100] = 95
    have hf : ⌊(19/20 : ℚ) * (((2 : ℕ) : ℚ) - 1)⌋ = 0 := by
      rw [show (19/20 : ℚ) * (((2 : ℕ) : ℚ) - 1) = 19/20 by push_cast; ring]
      rw [Int.floor_eq_iff]
      norm_num
    simp only [quantileLinear, hs, List.length_cons, List.length_nil]
    rw [hf]
    norm_num
  · have hc : ⌈(19/20 : ℚ) * ((2 : ℕ) : ℚ)⌉ = 2 := by
      rw [show (19/20 : ℚ) * ((2 : ℕ) : ℚ) = 19/10 by push_cast; ring]
      rw [Int.ceil_eq_iff]
      constructor <;> norm_num
    simp only [nearestRankSpec, hs, List.length_cons, List.length_nil]
    rw [hc]
    rfl

/-- C4 (amended): the superseded aggregator's `_compute_metrics` reports
p95 as `round(sorted[min(int(0.95·n), n−1)], 2)` — a floor-rank selection
that coincides with the claimed nearest-rank `sorted[ceil(0.95·n) − 1]`
exactly when `0.95·n` is not an integer — while the current aggregator's
`compute_aggregates` reports the linearly interpolated `quantile(0.95)`;
both are deterministic functions of the sample. -/
theorem p95_formulas (g : List OldEntry) (g2 : List ReqEntry) :
    (computeMetricsOld g).p95_latency =
        pyRound 2 (selectP95 (g.map OldEntry.latency_ms)) ∧
      (¬ (20 ∣ 19 * g.length) →
        selectP95 (g.map OldEntry.latency_ms) =
          nearestRankSpec (19/20) (g.map OldEntry.latency_ms)) ∧
      (computeAggRecord g2).p95_latency =
        quantileLinear (19/20) (g2.map ReqEntry.latency_ms) := by
  refine ⟨rfl, ?_, rfl⟩
  intro h
  apply selectP95_eq_nearestRank
  simpa using h

/-- C4 witness: a three-element sample (so that `0.95·n` is not integral)
where the floor-rank p95 provably equals the nearest-rank p95. -/
theorem p95_formulas_witness :
    ¬ (20 ∣ 19 * ([mkParsed 200 5 0, mkParsed 200 1 0, mkParsed 200 9 0] : List OldEntry).length) ∧
      selectP95 ([mkParsed 200 5 0, mkParsed 200 1 0, mkParsed 200 9 0].map OldEntry.latency_ms) =
        nearestRankSpec (19/20)
          ([mkParsed 200 5 0, mkParsed 200 1 0, mkParsed 200 9 0].map OldEntry.latency_ms) := by
  constructor
  · decide
  · exact (p95_formulas [mkParsed 200 5 0, mkParsed 200 1 0, mkParsed 200 9 0] []).2.1 (by decide)

/-- Shared: `detectOne` on a baseline with fewer than 10 samples emits
nothing. -/
theorem detectOne_lowCount (e w m : String) (v : ℚ) (b : DBase)
    (h10 : b.count < 10) : detectOne e w m v (some b) = none := by
  simp only [detectOne]
  rw [if_pos h10]

/-- Shared: the emitting branch of `detectOne`. -/
theorem detectOne_emits (e w m : String) (v : ℚ) (b : DBase)
    (h10 : ¬ b.count < 10) (hc : 2 ≤ |zRolling v b| ∨ (3/2 : ℚ) ≤ |zEwma v b|) :
    detectOne e w m v (some b) =
      some ⟨e, w, m, b.mean, v, b.ewma, pyRound 4 (deviationRatio v b),
        pyRound 2 (max |zRolling v b| |zEwma v b|),
        severityFromZ (max |zRolling v b| |zEwma v b|)⟩ := by
  simp only [detectOne]
  rw [if_neg h10, if_pos hc]

/-- Shared: the silent branch of `detectOne`. -/
theorem detectOne_silent (e w m : String) (v : ℚ) (b : DBase)
    (h10 : ¬ b.count < 10) (hc : ¬ (2 ≤ |zRolling v b| ∨ (3/2 : ℚ) ≤ |zEwma v b|)) :
    detectOne e w m v (some b) = none := by
  simp only [detectOne]
  rw [if_neg h10, if_neg hc]

/-- Shared: every emitted anomaly is the record of the emitting branch. -/
theorem detectOne_some_fields (e w m : String) (v : ℚ) (b : DBase) (a : DAnomaly)
    (ha : detectOne e w m v (some b) = some a) :
    a = ⟨e, w, m, b.mean, v, b.ewma, pyRound 4 (deviationRatio v b),
      pyRound 2 (max |zRolling v b| |zEwma v b|),
      severityFromZ (max |zRolling v b| |zEwma v b|)⟩ := by
  by_cases h10 : b.count < 10
  · rw [detectOne_lowCount e w m v b h10] at ha
    cases ha
  · by_cases hc : 2 ≤ |zRolling v b| ∨ (3/2 : ℚ) ≤ |zEwma v b|
    · rw [detectOne_emits e w m v b h10 hc] at ha
      exact (Option.some.inj ha).symm
    · rw [detectOne_silent e w m v b h10 hc] at ha
      cases ha

/-- Shared: on a nonnegative argument `_severity_from_z` collapses to the
three-way threshold rule (its two `LOW` branches coincide). -/
theorem severityFromZ_eq (z : ℚ) (hz : 0 ≤ z) :
    severityFromZ z = if 3 ≤ z then "HIGH" else if 2 ≤ z then "MEDIUM" else "LOW" := by
  unfold severityFromZ
  rw [abs_of_nonneg hz]
  by_cases h3 : 3 ≤ z
  · rw [if_pos h3, if_pos h3]
  · rw [if_neg h3, if_neg h3]
    by_cases h2 : 2 ≤ z
    · rw [if_pos h2, if_pos h2]
    · rw [if_neg h2, if_neg h2]
      by_cases h1 : 1 ≤ z
      · rw [if_pos h1]
      · rw [if_neg h1]

/-- Shared: on a singleton `endpoint → window → {metric: value}` nesting,
`detect_anomalies` emits exactly what the loop body decides for that
metric. -/
theorem detectAnomalies_singleton (e w m : String) (v : ℚ) (b : DBase)
    (hm : m ∈ metricNames) :
    detectAnomalies [(e, [(w, [(m, v)])])] [(e, [(m, b)])] =
      (detectOne e w m v (some b)).toList := by
  simp only [metricNames, List.mem_cons, List.not_mem_nil, or_false] at hm
  rcases hm with rfl | rfl | rfl
  · cases hdet : detectOne e w "avg_latency" v (some b) <;>
      simp [detectAnomalies, metricNames, List.lookup, hdet]
  · cases hdet : detectOne e w "p95_latency" v (some b) <;>
      simp [detectAnomalies, metricNames, List.lookup, hdet]
  · cases hdet : detectOne e w "error_rate" v (some b) <;>
      simp [detectAnomalies, metricNames, List.lookup, hdet]

/-- C5: per (endpoint, window, metric), `detect_anomalies` emits no anomaly
when the baseline is absent or has `count < 10`; with `count ≥ 10` it emits
an anomaly iff `|z_rolling| ≥ 2.0` or `|z_ewma| ≥ 1.5`, and the emitted
severity is determined by `z = max(|z_rolling|, |z_ewma|)`: HIGH when
`z ≥ 3.0`, MEDIUM when `z ≥ 2.0`, else LOW. -/
theorem detect_anomaly_characterization (e w m : String) (v : ℚ) :
    detectOne e w m v none = none ∧
      (∀ b : DBase,
        (b.count < 10 → detectOne e w m v (some b) = none) ∧
        (10 ≤ b.count →
          ((detectOne e w m v (some b)).isSome ↔
            (2 ≤ |zRolling v b| ∨ (3/2 : ℚ) ≤ |zEwma v b|)) ∧
          ∀ a : DAnomaly, detectOne e w m v (some b) = some a →
            a.severity =
              if 3 ≤ max |zRolling v b| |zEwma v b| then "HIGH"
              else if 2 ≤ max |zRolling v b| |zEwma v b| then "MEDIUM"
              else "LOW")) ∧
      (m ∈ metricNames → ∀ b : DBase,
        detectAnomalies [(e, [(w, [(m, v)])])] [(e, [(m, b)])] =
          (detectOne e w m v (some b)).toList) := by
  refine ⟨rfl, fun b => ⟨detectOne_lowCount e w m v b, fun hge => ⟨?_, ?_⟩⟩,
    fun hm b => detectAnomalies_singleton e w m v b hm⟩
  · have h10 : ¬ b.count < 10 := not_lt.mpr hge
    by_cases hc : 2 ≤ |zRolling v b| ∨ (3/2 : ℚ) ≤ |zEwma v b|
    · rw [detectOne_emits e w m v b h10 hc]
      simpa using hc
    · rw [detectOne_silent e w m v b h10 hc]
      simpa using hc
  · intro a ha
    have hz : (0 : ℚ) ≤ max |zRolling v b| |zEwma v b| :=
      le_trans (abs_nonneg _) (le_max_left _ _)
    rw [detectOne_some_fields e w m v b a ha]
    exact severityFromZ_eq _ hz

/-- C5 witness: at baseline (mean 100, std 10, count 20) and value 130 the
rolling z-score is 3, so an anomaly is emitted and its severity is HIGH. -/
theorem detect_anomaly_characterization_witness :
    (10 ≤ (⟨100, 10, 100, 10, 20⟩ : DBase).count) ∧
      (detectOne "/a" "w" "avg_latency" 130 (some ⟨100, 10, 100, 10, 20⟩)).isSome ∧
      ∀ a : DAnomaly,
        detectOne "/a" "w" "avg_latency" 130 (some ⟨100, 10, 100, 10, 20⟩) = some a →
          a.severity = "HIGH" := by
  have hzr : zRolling 130 ⟨100, 10, 100, 10, 20⟩ = 3 := by
    norm_num [zRolling]
  have hze : zEwma 130 ⟨100, 10, 100, 10, 20⟩ = 3 := by
    norm_num [zEwma]
  have h := (detect_anomaly_characterization "/a" "w" "avg_latency" 130).2.1
    ⟨100, 10, 100, 10, 20⟩
  have h2 := (h.2 (by norm_num)).1
  have h3 := (h.2 (by norm_num)).2
  refine ⟨by norm_num, h2.mpr ?_, fun a ha => ?_⟩
  · left
    rw [hzr]
    norm_num
  · rw [h3 a ha, hzr, hze]
    norm_num

/-- C8 (counterexample): at baseline mean 1/2 (std 1/4, count 10) and value
3/2 an anomaly is emitted whose deviation_ratio is 2 = (v−mean)/|mean|,
while the claimed `(v−mean)/max(|mean|, 1)` is 1 — the code divides by
`abs(mean)` whenever `mean ≠ 0`, not by `max(|mean|, 1)`. -/
theorem deviation_ratio_counterexample :
    (detectOne "/a" "w" "avg_latency" (3/2) (some ⟨1/2, 1/4, 1/2, 1/4, 10⟩)).map
        DAnomaly.deviation_ratio = some 2 ∧
      ((3/2 : ℚ) - 1/2) / max |(1/2 : ℚ)| 1 = 1 ∧ (2 : ℚ) ≠ 1 := by
  refine ⟨?_, ?_, by norm_num⟩
  · have h10 : ¬ (⟨1/2, 1/4, 1/2, 1/4, 10⟩ : DBase).count < 10 := by norm_num
    have hzr : zRolling (3/2) ⟨1/2, 1/4, 1/2, 1/4, 10⟩ = 4 := by
      norm_num [zRolling]
    have hc : 2 ≤ |zRolling (3/2) ⟨1/2, 1/4, 1/2, 1/4, 10⟩| ∨
        (3/2 : ℚ) ≤ |zEwma (3/2) ⟨1/2, 1/4, 1/2, 1/4, 10⟩| := by
      left
      rw [hzr]
      norm_num
    rw [detectOne_emits _ _ _ _ _ h10 hc]
    have hdev : deviationRatio (3/2) ⟨1/2, 1/4, 1/2, 1/4, 10⟩ = 2 := by
      simp only [deviationRatio]
      rw [if_pos (by norm_num : ((⟨1/2, 1/4, 1/2, 1/4, 10⟩ : DBase).mean ≠ 0)),
        show |(⟨1/2, 1/4, 1/2, 1/4, 10⟩ : DBase).mean| = 1/2 from abs_of_nonneg (by norm_num)]
      norm_num
    rw [Option.map_some']
    show some (pyRound 4 (deviationRatio (3/2) ⟨1/2, 1/4, 1/2, 1/4, 10⟩)) = some 2
    rw [hdev, pyRound_eq_self 4 2 20000 (by norm_num)]
    norm_num
  · rw [show |(1/2 : ℚ)| = 1/2 from abs_of_nonneg (by norm_num)]
    norm_num

/-- C8 (amended): every anomaly emitted by `detect_anomalies` has
`deviation_ratio = round((v − mean)/|mean|, 4)` when `mean ≠ 0` and
`round(v − mean, 4)` when `mean = 0`; this agrees with the claimed
denominator `max(|mean|, 1)` exactly when `|mean| ≥ 1`. -/
theorem deviation_ratio_formula (e w m : String) (v : ℚ) (b : DBase) (a : DAnomaly)
    (ha : detectOne e w m v (some b) = some a) :
    (b.mean ≠ 0 → a.deviation_ratio = pyRound 4 ((v - b.mean) / |b.mean|)) ∧
      (b.mean = 0 → a.deviation_ratio = pyRound 4 (v - b.mean)) ∧
      (1 ≤ |b.mean| → a.deviation_ratio = pyRound 4 ((v - b.mean) / max |b.mean| 1)) := by
  have hfields := detectOne_some_fields e w m v b a ha
  have hdr : a.deviation_ratio = pyRound 4 (deviationRatio v b) := by
    rw [hfields]
  refine ⟨fun h0 => ?_, fun h0 => ?_, fun h1 => ?_⟩
  · rw [hdr]
    unfold deviationRatio
    rw [if_pos h0]
  · rw [hdr]
    unfold deviationRatio
    rw [if_neg (by simp [h0]), div_one]
  · have h0 : b.mean ≠ 0 := by
      intro hz
      rw [hz, abs_zero] at h1
      norm_num at h1
    rw [hdr]
    unfold deviationRatio
    rw [if_pos h0, max_eq_left h1]

/-- C8 witness: at baseline mean 100 (≥ 1) and value 130 the emitted
deviation_ratio is `round(30/100, 4) = 3/10`, matching both the code's
`|mean|` denominator and the claimed `max(|mean|, 1)` denominator. -/
theorem deviation_ratio_formula_witness :
    ∃ a : DAnomaly,
      detectOne "/a" "w" "avg_latency" 130 (some ⟨100, 10, 100, 10, 20⟩) = some a ∧
        a.deviation_ratio = pyRound 4 ((130 - (100 : ℚ)) / |(100 : ℚ)|) ∧
        a.deviation_ratio = pyRound 4 ((130 - (100 : ℚ)) / max |(100 : ℚ)| 1) := by
  have h10 : ¬ (⟨100, 10, 100, 10, 20⟩ : DBase).count < 10 := by norm_num
  have hzr : zRolling 130 ⟨100, 10, 100, 10, 20⟩ = 3 := by
    norm_num [zRolling]
  have hc : 2 ≤ |zRolling 130 ⟨100, 10, 100, 10, 20⟩| ∨
      (3/2 : ℚ) ≤ |zEwma 130 ⟨100, 10, 100, 10, 20⟩| := by
    left
    rw [hzr]
    norm_num
  have hsome := detectOne_emits "/a" "w" "avg_latency" 130 ⟨100, 10, 100, 10, 20⟩ h10 hc
  refine ⟨_, hsome, ?_, ?_⟩
  · exact (deviation_ratio_formula "/a" "w" "avg_latency" 130 ⟨100, 10, 100, 10, 20⟩ _
      hsome).1 (by norm_num)
  · exact (deviation_ratio_formula "/a" "w" "avg_latency" 130 ⟨100, 10, 100, 10, 20⟩ _
      hsome).2.2 (by rw [show |(100 : ℚ)| = 100 from abs_of_nonneg (by norm_num)]; norm_num)

/-- Shared: every candidate `emitGroup` emits carries the group's key, the
group itself as its signals, and the severity of the signal-combination
table. -/
theorem emitGroup_key (k : String × String) (g : List CAnomaly) (al : CAlert)
    (h : emitGroup k g = some al) :
    al.endpoint = k.1 ∧ al.window_start = k.2 ∧ al.signals = g ∧
      al.severity =
        (if hasLatencySignal g && hasErrorSignal g then "HIGH" else "MEDIUM") := by
  unfold emitGroup at h
  by_cases h1 : hasLatencySignal g && hasErrorSignal g
  · rw [if_pos h1] at h
    obtain rfl := Option.some.inj h
    exact ⟨rfl, rfl, rfl, (if_pos h1).symm⟩
  · rw [if_neg h1] at h
    by_cases h2 : hasLatencySignal g || hasErrorSignal g
    · rw [if_pos h2] at h
      obtain rfl := Option.some.inj h
      exact ⟨rfl, rfl, rfl, (if_neg h1).symm⟩
    · rw [if_neg h2] at h
      cases h

/-- Shared: `emitGroup` emits exactly when a latency or error signal is
present in the group. -/
theorem emitGroup_isSome (k : String × String) (g : List CAnomaly) :
    (emitGroup k g).isSome = (hasLatencySignal g || hasErrorSignal g) := by
  unfold emitGroup
  cases hl : hasLatencySignal g <;> cases he : hasErrorSignal g <;> simp

/-- Shared: the visited key list contains no duplicates. -/
theorem sortedKeys_nodup (anoms : List CAnomaly) : (sortedKeys anoms).Nodup :=
  ((List.perm_insertionSort keyLe _).nodup_iff).mpr (List.nodup_dedup _)

/-- Shared: a key is visited iff some valid anomaly carries it. -/
theorem mem_sortedKeys (anoms : List CAnomaly) (k : String × String) :
    k ∈ sortedKeys anoms ↔ k ∈ (anoms.filter validAnomaly).map anomalyKey := by
  unfold sortedKeys
  rw [(List.perm_insertionSort keyLe _).mem_iff, List.mem_dedup]

/-- Shared: counting the candidates with a fixed key across the per-key
`filterMap`, for any duplicate-free key list. -/
theorem countP_key_filterMap (anoms : List CAnomaly) (e w : String)
    (keys : List (String × String)) (hnd : keys.Nodup) :
    ((keys.filterMap (fun k => emitGroup k (groupOf anoms k))).countP
        (fun al => decide (al.endpoint = e ∧ al.window_start = w))) =
      if (e, w) ∈ keys then
        (if hasLatencySignal (groupOf anoms (e, w)) || hasErrorSignal (groupOf anoms (e, w))
          then 1 else 0)
      else 0 := by
  induction keys with
  | nil => simp
  | cons k ks ih =>
    obtain ⟨hk, hks⟩ := List.nodup_cons.mp hnd
    rw [List.filterMap_cons]
    cases hemit : emitGroup k (groupOf anoms k) with
    | none =>
      rw [ih hks]
      by_cases hkey : (e, w) = k
      · subst hkey
        have hsome : (hasLatencySignal (groupOf anoms (e, w)) ||
            hasErrorSignal (groupOf anoms (e, w))) = false := by
          rw [← emitGroup_isSome (e, w), hemit]
          rfl
        simp [hsome, hk]
      · have : ((e, w) ∈ k :: ks) ↔ ((e, w) ∈ ks) := by
          simp [List.mem_cons, hkey]
        rw [if_congr this rfl rfl]
    | some al =>
      obtain ⟨hale, halw, _, _⟩ := emitGroup_key k (groupOf anoms k) al hemit
      rw [List.countP_cons, ih hks]
      by_cases hkey : (e, w) = k
      · subst hkey
        have hsome : (hasLatencySignal (groupOf anoms (e, w)) ||
            hasErrorSignal (groupOf anoms (e, w))) = true := by
          rw [← emitGroup_isSome (e, w), hemit]
          rfl
        have hpred : decide (al.endpoint = e ∧ al.window_start = w) = true := by
          rw [decide_eq_true_eq]
          exact ⟨hale, halw⟩
        simp [hsome, hk, hpred]
      · have hpred : decide (al.endpoint = e ∧ al.window_start = w) = false := by
          rw [decide_eq_false_iff_not]
          rintro ⟨he', hw'⟩
          exact hkey (by rw [← he', ← hw', hale, halw])
        have hmem : ((e, w) ∈ k :: ks) ↔ ((e, w) ∈ ks) := by
          simp [List.mem_cons, hkey]
        rw [hpred, if_congr hmem rfl rfl]
        simp

/-- C6: for every group of anomalies sharing a (non-falsy) `(endpoint,
window_start)` key, `correlate` emits exactly one candidate when a latency
signal (`avg_latency`/`p95_latency`) or an `error_rate` signal is present —
with severity HIGH when both kinds are present and MEDIUM otherwise — and
no candidate when the group has only `request_volume` (traffic) signals or
no qualifying signal; every emitted candidate for the key carries the whole
group as its signals. -/
theorem correlate_per_group (anoms : List CAnomaly) (e w : String)
    (hne : groupOf anoms (e, w) ≠ []) :
    ((correlate anoms).countP
        (fun al => decide (al.endpoint = e ∧ al.window_start = w)) =
      if hasLatencySignal (groupOf anoms (e, w)) || hasErrorSignal (groupOf anoms (e, w))
        then 1 else 0) ∧
      ∀ al ∈ correlate anoms, al.endpoint = e → al.window_start = w →
        al.signals = groupOf anoms (e, w) ∧
        al.severity =
          (if hasLatencySignal (groupOf anoms (e, w)) &&
              hasErrorSignal (groupOf anoms (e, w)) then "HIGH" else "MEDIUM") := by
  constructor
  · have hmem : (e, w) ∈ sortedKeys anoms := by
      rw [mem_sortedKeys]
      obtain ⟨a, ha⟩ := List.exists_mem_of_ne_nil _ hne
      have ha' : a ∈ (anoms.filter validAnomaly) ∧ (anomalyKey a == (e, w)) = true :=
        List.mem_filter.mp ha
      have hk : anomalyKey a = (e, w) := by
        have := ha'.2
        rwa [beq_iff_eq] at this
      exact hk ▸ List.mem_map_of_mem anomalyKey ha'.1
    unfold correlate
    rw [countP_key_filterMap anoms e w (sortedKeys anoms) (sortedKeys_nodup anoms),
      if_pos hmem]
  · intro al hal he' hw'
    obtain ⟨k, _, hemit⟩ := List.mem_filterMap.mp hal
    obtain ⟨hale, halw, hsig, hsev⟩ := emitGroup_key k (groupOf anoms k) al hemit
    have hk : k = (e, w) := by
      have h1 : k.1 = e := by rw [← hale, he']
      have h2 : k.2 = w := by rw [← halw, hw']
      exact Prod.ext h1 h2
    subst hk
    exact ⟨hsig, hsev⟩

/-- C6 witness: a latency anomaly and an error anomaly on the same
`(endpoint, window)` yield exactly one candidate for that key, and it is
HIGH with both signals attached; a traffic-only group on another key yields
no candidate. -/
theorem correlate_per_group_witness :
    (groupOf [⟨"/a", "t", "avg_latency", "HIGH", false⟩,
        ⟨"/a", "t", "error_rate", "MEDIUM", false⟩,
        ⟨"/b", "t", "request_volume", "HIGH", false⟩] ("/a", "t") ≠ []) ∧
      ((correlate [⟨"/a", "t", "avg_latency", "HIGH", false⟩,
          ⟨"/a", "t", "error_rate", "MEDIUM", false⟩,
          ⟨"/b", "t", "request_volume", "HIGH", false⟩]).countP
        (fun al => decide (al.endpoint = "/a" ∧ al.window_start = "t")) = 1) ∧
      ((correlate [⟨"/a", "t", "avg_latency", "HIGH", false⟩,
          ⟨"/a", "t", "error_rate", "MEDIUM", false⟩,
          ⟨"/b", "t", "request_volume", "HIGH", false⟩]).countP
        (fun al => decide (al.endpoint = "/b" ∧ al.window_start = "t")) = 0) := by
  refine ⟨by decide, ?_, ?_⟩
  · have h := (correlate_per_group [⟨"/a", "t", "avg_latency", "HIGH", false⟩,
      ⟨"/a", "t", "error_rate", "MEDIUM", false⟩,
      ⟨"/b", "t", "request_volume", "HIGH", false⟩] "/a" "t" (by decide)).1
    rw [h]
    decide
  · have h := (correlate_per_group [⟨"/a", "t", "avg_latency", "HIGH", false⟩,
      ⟨"/a", "t", "error_rate", "MEDIUM", false⟩,
      ⟨"/b", "t", "request_volume", "HIGH", false⟩] "/b" "t" (by decide)).1
    rw [h]
    decide
